import Mathlib

/-
Verification of the steam-cracker CO2 allocation program (streamcracker.py)
against its natural-language specification.

The program is a single-file app: three raw product masses are read from
bounded numeric inputs, two fixed emission pools (naphtha/feedstock = 2.0,
energy = 1.0) are distributed over the products under two policies
(an HVC-only view and an all-products mass-based view), and an overview page
compares the two via a per-product burden difference.

All arithmetic is embedded over ℚ (the program's values are small decimal
constants and ratios of them, all exact).  Python raising ZeroDivisionError
on a zero denominator, and the input widgets rejecting values below their
minimum, are modelled with an explicit error type: each page of the app is a
function into Except AppError.
-/

namespace StreamCracker

/-- The three raw product masses entered in the sidebar (source lines 21-23). -/
structure Masses where
  ethylene : ℚ
  propylene : ℚ
  fuel : ℚ
deriving DecidableEq

/-- Source line 24: total_mass = ethylene + propylene + fuel. -/
def total_mass (m : Masses) : ℚ := m.ethylene + m.propylene + m.fuel

/-- Source line 27: emission_naphtha = 2.0 (t CO2). -/
def emission_naphtha : ℚ := 2

/-- Source line 28: emission_energy = 1.0 (t CO2). -/
def emission_energy : ℚ := 1

/-- Errors the running program can signal before producing a page result:
the numeric input widgets reject a value below their minimum
(lines 21-23, min_value = 0), and Python raises ZeroDivisionError when a
denominator is zero. -/
inductive AppError
  | invalidInput
  | zeroDivision
deriving DecidableEq

/-- A bounded numeric input (st.sidebar.number_input with min_value):
a value below the bound is rejected, not used. -/
def number_input (value : ℚ) (min_value : ℚ) : Except AppError ℚ :=
  if value < min_value then .error .invalidInput else .ok value

/-- Source lines 21-23: the three masses are read through number_input,
each with min_value = 0. -/
def readMasses (e p f : ℚ) : Except AppError Masses := do
  let ethylene ← number_input e 0
  let propylene ← number_input p 0
  let fuel ← number_input f 0
  pure ⟨ethylene, propylene, fuel⟩

/-- Source line 115: the HVC-only view's naphtha allocation is the fixed
list of constants [1.0, 0.6, 0.4] (Ethylene, Propylene, Fuel). -/
def hvcOnly_naphtha_alloc : List ℚ := [1, 0.6, 0.4]

/-- Source line 116: total_hvc = ethylene + propylene. -/
def total_hvc (m : Masses) : ℚ := m.ethylene + m.propylene

/-- Source lines 117-121: the HVC-only view's energy allocation, dividing by
total_hvc; the module constant emission_energy is passed as a parameter. -/
def hvcOnly_energy_alloc (emission_energy : ℚ) (m : Masses) : List ℚ :=
  [emission_energy * m.ethylene / total_hvc m,
   emission_energy * m.propylene / total_hvc m,
   0]

/-- Source lines 136-140: the all-products view's naphtha allocation,
mass-proportional over total_mass. -/
def allProducts_naphtha_alloc (emission_naphtha : ℚ) (m : Masses) : List ℚ :=
  [emission_naphtha * m.ethylene / total_mass m,
   emission_naphtha * m.propylene / total_mass m,
   emission_naphtha * m.fuel / total_mass m]

/-- Source lines 141-145: the all-products view's energy allocation,
mass-proportional over total_mass. -/
def allProducts_energy_alloc (emission_energy : ℚ) (m : Masses) : List ℚ :=
  [emission_energy * m.ethylene / total_mass m,
   emission_energy * m.propylene / total_mass m,
   emission_energy * m.fuel / total_mass m]

/-- Source line 160: the overview page's HVC-only naphtha shares, the same
fixed constants [1.0, 0.6, 0.4]. -/
def hvc_naphtha : List ℚ := [1, 0.6, 0.4]

/-- Source line 161: the overview page's HVC-only energy shares, dividing by
the literal constant 800. -/
def hvc_energy (emission_energy : ℚ) (m : Masses) : List ℚ :=
  [emission_energy * m.ethylene / 800,
   emission_energy * m.propylene / 800,
   0]

/-- Source line 162: the overview page's all-products naphtha shares
(list comprehension over [ethylene, propylene, fuel]). -/
def all_naphtha (emission_naphtha : ℚ) (m : Masses) : List ℚ :=
  [emission_naphtha * m.ethylene / total_mass m,
   emission_naphtha * m.propylene / total_mass m,
   emission_naphtha * m.fuel / total_mass m]

/-- Source line 163: the overview page's all-products energy shares. -/
def all_energy (emission_energy : ℚ) (m : Masses) : List ℚ :=
  [emission_energy * m.ethylene / total_mass m,
   emission_energy * m.propylene / total_mass m,
   emission_energy * m.fuel / total_mass m]

/-- Source line 41 (format_table): per-product total emission,
the elementwise sum of the naphtha and energy lists. -/
def totalShare (naphtha energy : List ℚ) : List ℚ :=
  List.zipWith (· + ·) naphtha energy

/-- Source lines 189-192: burdens[i] =
(hvc_naphtha[i] + hvc_energy[i]) - (all_naphtha[i] + all_energy[i]),
written elementwise over the three products. -/
def burdens (emission_naphtha emission_energy : ℚ) (m : Masses) : List ℚ :=
  List.zipWith (fun h a => h - a)
    (totalShare hvc_naphtha (hvc_energy emission_energy m))
    (totalShare (all_naphtha emission_naphtha m) (all_energy emission_energy m))

/-- Source lines 112-130, the HVC-only page: its result is the pair
(naphtha_alloc, energy_alloc); Python raises ZeroDivisionError when
total_hvc = 0 (lines 118-119) and the page produces nothing. -/
def hvcOnlyView (m : Masses) : Except AppError (List ℚ × List ℚ) :=
  if total_hvc m = 0 then .error .zeroDivision
  else .ok (hvcOnly_naphtha_alloc, hvcOnly_energy_alloc emission_energy m)

/-- Source lines 133-154, the all-products page: its result is the pair
(naphtha_alloc, energy_alloc); Python raises ZeroDivisionError when
total_mass = 0 (lines 137-144). -/
def allProductsView (m : Masses) : Except AppError (List ℚ × List ℚ) :=
  if total_mass m = 0 then .error .zeroDivision
  else .ok (allProducts_naphtha_alloc emission_naphtha m,
            allProducts_energy_alloc emission_energy m)

/-- Source lines 157-209, the overview page: its numeric result is the
burden list; the only division with a variable denominator is by total_mass
(lines 162-163; the two-product energy denominator is the literal 800). -/
def overviewView (m : Masses) : Except AppError (List ℚ) :=
  if total_mass m = 0 then .error .zeroDivision
  else .ok (burdens emission_naphtha emission_energy m)

/-- The HVC-only page run from the raw sidebar values: inputs are read
(and validated by the widgets) before any allocation arithmetic. -/
def hvcOnlyPage (e p f : ℚ) : Except AppError (List ℚ × List ℚ) := do
  hvcOnlyView (← readMasses e p f)

/-- The all-products page run from the raw sidebar values. -/
def allProductsPage (e p f : ℚ) : Except AppError (List ℚ × List ℚ) := do
  allProductsView (← readMasses e p f)

/-- The overview page run from the raw sidebar values. -/
def overviewPage (e p f : ℚ) : Except AppError (List ℚ) := do
  overviewView (← readMasses e p f)

/-- Errors of the normalization component described by the spec. -/
inductive NormError
  | undefinedNormalization
deriving DecidableEq

/-- Modelled from the spec: the Mass Normalizer component (spec section 4.1)
has no realization in the source — the three views consume the raw masses
directly, and line 24 only forms their sum — so it is defined here from the
spec's words: scale = basis / sum(raw_mass), normalized_mass[i] =
raw_mass[i] * scale, and a zero sum of raw masses is signalled explicitly
instead of being divided by. -/
def normalize (raws : List ℚ) (basis : ℚ) : Except NormError (List ℚ) :=
  if raws.sum = 0 then .error .undefinedNormalization
  else .ok (raws.map (fun r => r * (basis / raws.sum)))

/-- Claim C4: under the AllProducts policy, for every input with
total_mass > 0 and any non-negative pools, the per-product total shares
(feedstock plus energy) sum exactly to pools.feedstock + pools.energy. -/
theorem C4_allProducts_conservation (en ee : ℚ) (_hen : 0 ≤ en) (_hee : 0 ≤ ee)
    (m : Masses) (h : 0 < total_mass m) :
    (totalShare (allProducts_naphtha_alloc en m) (allProducts_energy_alloc ee m)).sum
      = en + ee := by
  have hne : m.ethylene + m.propylene + m.fuel ≠ 0 := by
    simpa [total_mass] using ne_of_gt h
  simp only [totalShare, allProducts_naphtha_alloc, allProducts_energy_alloc,
    total_mass, List.zipWith, List.sum_cons, List.sum_nil]
  field_simp
  ring

/-- Witness for C4 at the default masses (500, 300, 200) and the program's
pools (2, 1): the total shares sum to 3. -/
theorem C4_allProducts_conservation_witness :
    (0 : ℚ) ≤ 2 ∧ (0 : ℚ) ≤ 1 ∧ 0 < total_mass ⟨500, 300, 200⟩ ∧
    (totalShare (allProducts_naphtha_alloc 2 ⟨500, 300, 200⟩)
      (allProducts_energy_alloc 1 ⟨500, 300, 200⟩)).sum = 2 + 1 :=
  ⟨by norm_num, by norm_num, by norm_num [total_mass],
    C4_allProducts_conservation 2 1 (by norm_num) (by norm_num)
      ⟨500, 300, 200⟩ (by norm_num [total_mass])⟩

/-- Claim C8: under the HVC-only view, for every input with
ethylene + propylene > 0, the energy pool is split only between ethylene
and propylene in proportion to their own masses, and the fuel product
receives an energy share of exactly 0. -/
theorem C8_hvcOnly_energy_split (m : Masses) (h : 0 < total_hvc m) :
    hvcOnlyView m = .ok (hvcOnly_naphtha_alloc,
      [emission_energy * m.ethylene / (m.ethylene + m.propylene),
       emission_energy * m.propylene / (m.ethylene + m.propylene),
       0]) := by
  have hne : m.ethylene + m.propylene ≠ 0 := by
    simpa [total_hvc] using ne_of_gt h
  simp [hvcOnlyView, total_hvc, hne, hvcOnly_energy_alloc]

/-- Witness for C8 at the default masses (500, 300, 200): the view succeeds
with energy shares emission_energy * 500 / 800, emission_energy * 300 / 800
and 0. -/
theorem C8_hvcOnly_energy_split_witness :
    0 < total_hvc ⟨500, 300, 200⟩ ∧
    hvcOnlyView ⟨500, 300, 200⟩ = .ok (hvcOnly_naphtha_alloc,
      [emission_energy * 500 / (500 + 300),
       emission_energy * 300 / (500 + 300),
       0]) :=
  ⟨by norm_num [total_hvc],
    C8_hvcOnly_energy_split ⟨500, 300, 200⟩ (by norm_num [total_hvc])⟩

/-- Claim C10: in the HVC-only allocation computed with the
ethylene + propylene denominator, for every input with
ethylene + propylene > 0, the three energy shares sum exactly to the
energy pool total. -/
theorem C10_hvcOnly_energy_conservation (m : Masses) (h : 0 < total_hvc m) :
    (hvcOnly_energy_alloc emission_energy m).sum = emission_energy := by
  have hne : m.ethylene + m.propylene ≠ 0 := by
    simpa [total_hvc] using ne_of_gt h
  simp only [hvcOnly_energy_alloc, total_hvc, List.sum_cons, List.sum_nil]
  field_simp
  ring

/-- Witness for C10 at the default masses (500, 300, 200): the energy
shares sum to emission_energy. -/
theorem C10_hvcOnly_energy_conservation_witness :
    0 < total_hvc ⟨500, 300, 200⟩ ∧
    (hvcOnly_energy_alloc emission_energy ⟨500, 300, 200⟩).sum = emission_energy :=
  ⟨by norm_num [total_hvc],
    C10_hvcOnly_energy_conservation ⟨500, 300, 200⟩ (by norm_num [total_hvc])⟩

/-- Helper: multiplying every element of a list by a constant multiplies
its sum by that constant. -/
theorem sum_map_mul_const (l : List ℚ) (c : ℚ) :
    (l.map (fun r => r * c)).sum = l.sum * c := by
  induction l with
  | nil => simp
  | cons a t ih => simp [ih, add_mul]

/-- Claim C6: whenever a required denominator (total_mass for the
all-products and overview pages, the ethylene + propylene sum for the
HVC-only page) is zero while the corresponding emission pool is non-zero,
the page fails with an explicit error, distinguishable from other errors,
rather than producing a result. -/
theorem C6_zero_denominator_errors (m : Masses) :
    emission_naphtha ≠ 0 ∧ emission_energy ≠ 0 ∧
    AppError.zeroDivision ≠ AppError.invalidInput ∧
    (total_hvc m = 0 → hvcOnlyView m = .error .zeroDivision) ∧
    (total_mass m = 0 → allProductsView m = .error .zeroDivision) ∧
    (total_mass m = 0 → overviewView m = .error .zeroDivision) := by
  refine ⟨by norm_num [emission_naphtha], by norm_num [emission_energy],
    by decide, ?_, ?_, ?_⟩
  · intro h0
    simp [hvcOnlyView, h0]
  · intro h0
    simp [allProductsView, h0]
  · intro h0
    simp [overviewView, h0]

/-- Witness for C6 at masses (0, 0, 0), where both denominators are zero:
all three pages fail with the zero-division error. -/
theorem C6_zero_denominator_errors_witness :
    total_hvc ⟨0, 0, 0⟩ = 0 ∧ total_mass ⟨0, 0, 0⟩ = 0 ∧
    hvcOnlyView ⟨0, 0, 0⟩ = .error .zeroDivision ∧
    allProductsView ⟨0, 0, 0⟩ = .error .zeroDivision ∧
    overviewView ⟨0, 0, 0⟩ = .error .zeroDivision :=
  ⟨by norm_num [total_hvc], by norm_num [total_mass],
    (C6_zero_denominator_errors ⟨0, 0, 0⟩).2.2.2.1 (by norm_num [total_hvc]),
    (C6_zero_denominator_errors ⟨0, 0, 0⟩).2.2.2.2.1 (by norm_num [total_mass]),
    (C6_zero_denominator_errors ⟨0, 0, 0⟩).2.2.2.2.2 (by norm_num [total_mass])⟩

/-- Claim C7 (spec-modelled: the Mass Normalizer is absent from the source):
for non-negative raw masses with a positive sum and a positive basis,
normalization yields raw_mass * (basis / sum) with total equal to the basis;
a zero sum is rejected with the explicit undefined-normalization signal. -/
theorem C7_normalize_conservation (raws : List ℚ) (basis : ℚ)
    (_hnn : ∀ r ∈ raws, 0 ≤ r) (_hb : 0 < basis) :
    (0 < raws.sum →
      normalize raws basis = .ok (raws.map (fun r => r * (basis / raws.sum))) ∧
      (raws.map (fun r => r * (basis / raws.sum))).sum = basis) ∧
    (raws.sum = 0 → normalize raws basis = .error .undefinedNormalization) := by
  constructor
  · intro hs
    have hne : raws.sum ≠ 0 := ne_of_gt hs
    refine ⟨by simp [normalize, hne], ?_⟩
    rw [sum_map_mul_const]
    field_simp
  · intro hs
    simp [normalize, hs]

/-- Witness for C7 at raw masses [500, 300, 200] with basis 1000. -/
theorem C7_normalize_conservation_witness :
    (∀ r ∈ ([500, 300, 200] : List ℚ), 0 ≤ r) ∧ (0 : ℚ) < 1000 ∧
    (0 < ([500, 300, 200] : List ℚ).sum ∧
      ((0 : ℚ) < ([500, 300, 200] : List ℚ).sum →
        normalize [500, 300, 200] 1000 =
          .ok (([500, 300, 200] : List ℚ).map
            (fun r => r * (1000 / ([500, 300, 200] : List ℚ).sum))) ∧
        (([500, 300, 200] : List ℚ).map
          (fun r => r * (1000 / ([500, 300, 200] : List ℚ).sum))).sum = 1000)) :=
  ⟨by norm_num, by norm_num,
    ⟨by norm_num,
      (C7_normalize_conservation [500, 300, 200] 1000
        (by norm_num) (by norm_num)).1⟩⟩

/-- Helper: binding after a failed Except computation keeps the failure. -/
theorem except_error_bind {α β : Type} (err : AppError) (k : α → Except AppError β) :
    (Except.error err >>= k : Except AppError β) = Except.error err := rfl

/-- Helper: binding after a successful Except computation runs the rest. -/
theorem except_ok_bind {α β : Type} (a : α) (k : α → Except AppError β) :
    (Except.ok a >>= k : Except AppError β) = k a := rfl

/-- Claim C9: an input in which some raw mass is negative is rejected at the
input stage with the explicit invalid-input error, before any allocation is
computed, and no page produces an allocation result. -/
theorem C9_negative_mass_rejected (e p f : ℚ) (h : e < 0 ∨ p < 0 ∨ f < 0) :
    readMasses e p f = .error .invalidInput ∧
    hvcOnlyPage e p f = .error .invalidInput ∧
    allProductsPage e p f = .error .invalidInput ∧
    overviewPage e p f = .error .invalidInput := by
  have hr : readMasses e p f = .error .invalidInput := by
    rcases h with he | hp | hf
    · simp [readMasses, number_input, he, except_error_bind, except_ok_bind]
    · by_cases he : e < 0 <;>
        simp [readMasses, number_input, he, hp, except_error_bind, except_ok_bind]
    · by_cases he : e < 0 <;> by_cases hpp : p < 0 <;>
        simp [readMasses, number_input, he, hpp, hf, except_error_bind, except_ok_bind]
  refine ⟨hr, ?_, ?_, ?_⟩
  · simp [hvcOnlyPage, hr, except_error_bind]
  · simp [allProductsPage, hr, except_error_bind]
  · simp [overviewPage, hr, except_error_bind]

/-- Witness for C9 at raw masses (-5, 10, 0), the spec's scenario 4. -/
theorem C9_negative_mass_rejected_witness :
    ((-5 : ℚ) < 0 ∨ (10 : ℚ) < 0 ∨ (0 : ℚ) < 0) ∧
    readMasses (-5) 10 0 = .error .invalidInput ∧
    hvcOnlyPage (-5) 10 0 = .error .invalidInput ∧
    allProductsPage (-5) 10 0 = .error .invalidInput ∧
    overviewPage (-5) 10 0 = .error .invalidInput :=
  ⟨Or.inl (by norm_num),
    C9_negative_mass_rejected (-5) 10 0 (Or.inl (by norm_num))⟩

/-- Counterexample to claim C1: at masses (500, 300, 200) the HVC-only page
succeeds, and the ethylene feedstock share is the constant 1, not
emission_naphtha * 500 / 800 = 1.25 as the claim states. -/
theorem C1_counterexample :
    hvcOnlyView ⟨500, 300, 200⟩ = .ok ([1, 0.6, 0.4], [0.625, 0.375, 0]) ∧
    ((1 : ℚ) ≠ emission_naphtha * 500 / 800) := by
  constructor
  · norm_num [hvcOnlyView, total_hvc, hvcOnly_naphtha_alloc, hvcOnly_energy_alloc,
      emission_energy]
  · norm_num [emission_naphtha]

/-- Claim C1 as amended: under the HVC-only view the feedstock shares are
the fixed constants 1, 0.6, 0.4 (Ethylene, Propylene, Fuel) for every input
on which the page succeeds, independent of the masses and of the feedstock
pool. -/
theorem C1_amended_constant_feedstock (m : Masses) (h : total_hvc m ≠ 0) :
    ∃ energy, hvcOnlyView m = .ok ([1, 0.6, 0.4], energy) := by
  have hne : ¬ (m.ethylene + m.propylene = 0) := by simpa [total_hvc] using h
  exact ⟨hvcOnly_energy_alloc emission_energy m,
    by simp [hvcOnlyView, total_hvc, hne, hvcOnly_naphtha_alloc]⟩

/-- Witness for the amended C1 at the default masses (500, 300, 200). -/
theorem C1_amended_constant_feedstock_witness :
    total_hvc ⟨500, 300, 200⟩ ≠ 0 ∧
    ∃ energy, hvcOnlyView ⟨500, 300, 200⟩ = .ok ([1, 0.6, 0.4], energy) :=
  ⟨by norm_num [total_hvc],
    C1_amended_constant_feedstock ⟨500, 300, 200⟩ (by norm_num [total_hvc])⟩

/-- Counterexample to claim C2: at masses (500, 300, 200) the overview page
computes burdens [0.125, 0.075, -0.2], so Ethylene's delta is 0.125, not
-0.375; and the value AllProducts.total_share - HVCOnly.total_share formed
from the two result sets is -0.125 for Ethylene, which also differs from
both the computed burden and the claimed -0.375. -/
theorem C2_counterexample :
    overviewView ⟨500, 300, 200⟩ = .ok [0.125, 0.075, -0.2] ∧
    List.zipWith (fun a h => a - h)
      (totalShare (allProducts_naphtha_alloc emission_naphtha ⟨500, 300, 200⟩)
        (allProducts_energy_alloc emission_energy ⟨500, 300, 200⟩))
      (totalShare hvcOnly_naphtha_alloc
        (hvcOnly_energy_alloc emission_energy ⟨500, 300, 200⟩))
      = [-0.125, -0.075, 0.2] ∧
    ((0.125 : ℚ) ≠ -0.375) := by
  refine ⟨?_, ?_, by norm_num⟩
  · norm_num [overviewView, total_mass, burdens, totalShare, hvc_naphtha,
      hvc_energy, all_naphtha, all_energy, emission_naphtha, emission_energy]
  · norm_num [totalShare, allProducts_naphtha_alloc, allProducts_energy_alloc,
      hvcOnly_naphtha_alloc, hvcOnly_energy_alloc, total_mass, total_hvc,
      emission_naphtha, emission_energy]

/-- Claim C2 as amended: the overview page's burden delta per product is
HVCOnly.total_share minus AllProducts.total_share (so a positive delta means
the product carries more burden under HVCOnly); on inputs where
ethylene + propylene = 800 the overview's HVC-only totals coincide with the
HVC-only page's result set, and the identity holds against the two result
sets themselves. -/
theorem C2_amended_burden_sign (m : Masses) (hm : total_mass m ≠ 0)
    (h8 : total_hvc m = 800) :
    overviewView m = .ok (List.zipWith (fun h a => h - a)
      (totalShare hvcOnly_naphtha_alloc (hvcOnly_energy_alloc emission_energy m))
      (totalShare (allProducts_naphtha_alloc emission_naphtha m)
        (allProducts_energy_alloc emission_energy m))) := by
  have h800 : m.ethylene + m.propylene = 800 := by simpa [total_hvc] using h8
  simp [overviewView, hm, burdens, totalShare, hvc_naphtha, hvc_energy,
    all_naphtha, all_energy, hvcOnly_naphtha_alloc, hvcOnly_energy_alloc,
    allProducts_naphtha_alloc, allProducts_energy_alloc, total_hvc, h800]

/-- Witness for the amended C2 at the default masses (500, 300, 200). -/
theorem C2_amended_burden_sign_witness :
    total_mass ⟨500, 300, 200⟩ ≠ 0 ∧ total_hvc ⟨500, 300, 200⟩ = 800 ∧
    overviewView ⟨500, 300, 200⟩ = .ok (List.zipWith (fun h a => h - a)
      (totalShare hvcOnly_naphtha_alloc
        (hvcOnly_energy_alloc emission_energy ⟨500, 300, 200⟩))
      (totalShare (allProducts_naphtha_alloc emission_naphtha ⟨500, 300, 200⟩)
        (allProducts_energy_alloc emission_energy ⟨500, 300, 200⟩))) :=
  ⟨by norm_num [total_mass], by norm_num [total_hvc],
    C2_amended_burden_sign ⟨500, 300, 200⟩ (by norm_num [total_mass])
      (by norm_num [total_hvc])⟩

/-- Counterexample to claim C3: at masses (500, 300, 0) the fuel product has
raw mass 0 while another mass is positive, yet under the HVC-only view its
total share is 0.4 + 0 = 0.4, not 0. -/
theorem C3_counterexample :
    0 < total_mass ⟨500, 300, 0⟩ ∧
    hvcOnlyView ⟨500, 300, 0⟩ = .ok ([1, 0.6, 0.4], [0.625, 0.375, 0]) ∧
    totalShare [1, 0.6, 0.4] [0.625, 0.375, 0] = [1.625, 0.975, 0.4] ∧
    ((0.4 : ℚ) ≠ 0) := by
  refine ⟨by norm_num [total_mass], ?_, ?_, by norm_num⟩
  · norm_num [hvcOnlyView, total_hvc, hvcOnly_naphtha_alloc, hvcOnly_energy_alloc,
      emission_energy]
  · norm_num [totalShare]

/-- Claim C3 as amended: under the AllProducts view, for every input with
total_mass > 0, a product with raw mass 0 receives a total share of exactly
0; under the HVC-only view this fails because the feedstock shares are fixed
nonzero constants. -/
theorem C3_amended_zero_mass (m : Masses) (h : total_mass m ≠ 0) :
    allProductsView m = .ok (allProducts_naphtha_alloc emission_naphtha m,
        allProducts_energy_alloc emission_energy m) ∧
    (m.ethylene = 0 →
      (totalShare (allProducts_naphtha_alloc emission_naphtha m)
        (allProducts_energy_alloc emission_energy m)).getD 0 1 = 0) ∧
    (m.propylene = 0 →
      (totalShare (allProducts_naphtha_alloc emission_naphtha m)
        (allProducts_energy_alloc emission_energy m)).getD 1 1 = 0) ∧
    (m.fuel = 0 →
      (totalShare (allProducts_naphtha_alloc emission_naphtha m)
        (allProducts_energy_alloc emission_energy m)).getD 2 1 = 0) := by
  refine ⟨by simp [allProductsView, h], ?_, ?_, ?_⟩ <;> intro h0 <;>
    simp [totalShare, allProducts_naphtha_alloc, allProducts_energy_alloc, h0]

/-- Witness for the amended C3 at masses (500, 300, 0): the zero-mass fuel
product's total share under the AllProducts view evaluates to 0. -/
theorem C3_amended_zero_mass_witness :
    total_mass ⟨500, 300, 0⟩ ≠ 0 ∧
    (totalShare (allProducts_naphtha_alloc emission_naphtha ⟨500, 300, 0⟩)
      (allProducts_energy_alloc emission_energy ⟨500, 300, 0⟩)).getD 2 1 = 0 :=
  ⟨by norm_num [total_mass],
    (C3_amended_zero_mass ⟨500, 300, 0⟩ (by norm_num [total_mass])).2.2.2 rfl⟩

/-- Counterexample to claim C5: at masses (400, 300, 200) the HVC-only
page's energy shares (denominator ethylene + propylene = 700) are
[4/7, 3/7, 0], while the overview page's energy shares (literal denominator
800) are [1/2, 3/8, 0]; the two implementations disagree. -/
theorem C5_counterexample :
    hvcOnly_energy_alloc emission_energy ⟨400, 300, 200⟩ = [4/7, 3/7, 0] ∧
    hvc_energy emission_energy ⟨400, 300, 200⟩ = [1/2, 3/8, 0] ∧
    hvcOnly_energy_alloc emission_energy ⟨400, 300, 200⟩ ≠
      hvc_energy emission_energy ⟨400, 300, 200⟩ := by
  refine ⟨?_, ?_, ?_⟩ <;>
    norm_num [hvcOnly_energy_alloc, hvc_energy, total_hvc, emission_energy]

/-- Claim C5 as amended: the two implementations of the HVC-only energy
split agree exactly on the inputs whose ethylene + propylene sum equals
800 (as at the default masses); elsewhere they generally differ. -/
theorem C5_amended_agree_at_800 (m : Masses) (h8 : total_hvc m = 800) :
    hvcOnly_energy_alloc emission_energy m = hvc_energy emission_energy m := by
  have h800 : m.ethylene + m.propylene = 800 := by simpa [total_hvc] using h8
  simp [hvcOnly_energy_alloc, hvc_energy, total_hvc, h800]

/-- Witness for the amended C5 at the default masses (500, 300, 200). -/
theorem C5_amended_agree_at_800_witness :
    total_hvc ⟨500, 300, 200⟩ = 800 ∧
    hvcOnly_energy_alloc emission_energy ⟨500, 300, 200⟩ =
      hvc_energy emission_energy ⟨500, 300, 200⟩ :=
  ⟨by norm_num [total_hvc],
    C5_amended_agree_at_800 ⟨500, 300, 200⟩ (by norm_num [total_hvc])⟩

end StreamCracker
